import Mathlib

/-!
Verification of the onehaven deal-decision core.

The backend scaffold (`backend/app/config.py`, `backend/app/domain/underwriting.py`,
`backend/app/domain/decision_engine.py`, `backend/app/routers/evaluate.py`) is
embedded shallowly below.  Python `float` arithmetic is modelled exactly over `ℚ`;
the `float("inf")` sentinels of the underwriting calculator are modelled as `none`
of an `Option ℚ`, and Python `round(x, n)` (round-half-to-even) is modelled by
`pyRound`.  Database lookups of the evaluate endpoint are modelled by passing the
looked-up rows (`Option RentAssumption`, `Option JurisdictionRule`) as arguments.
-/

namespace Onehaven

/-- Configuration defaults from `backend/app/config.py` (class `Settings`). -/
structure Settings where
  max_price : ℚ
  min_bedrooms : ℤ
  min_inventory : ℤ
  rent_rule_min_pct : ℚ
  rent_rule_target_pct : ℚ
  vacancy_rate : ℚ
  maintenance_rate : ℚ
  management_rate : ℚ
  capex_rate : ℚ
  insurance_monthly : ℚ
  taxes_monthly : ℚ
  utilities_monthly : ℚ
  target_monthly_cashflow : ℚ
  target_roi : ℚ
  dscr_min : ℚ
deriving DecidableEq

/-- The default `settings` object instantiated in `config.py`. -/
def settings : Settings where
  max_price := 150000
  min_bedrooms := 2
  min_inventory := 80
  rent_rule_min_pct := 13 / 1000
  rent_rule_target_pct := 15 / 1000
  vacancy_rate := 5 / 100
  maintenance_rate := 10 / 100
  management_rate := 8 / 100
  capex_rate := 5 / 100
  insurance_monthly := 150
  taxes_monthly := 300
  utilities_monthly := 0
  target_monthly_cashflow := 400
  target_roi := 15 / 100
  dscr_min := 120 / 100

/-- Round to the nearest integer with ties going to the even integer,
the behaviour of Python built-in `round`. -/
def roundHalfEven (x : ℚ) : ℤ :=
  let f := ⌊x⌋
  let frac := x - (f : ℚ)
  if frac < 1 / 2 then f
  else if 1 / 2 < frac then f + 1
  else if f % 2 = 0 then f else f + 1

/-- Python `round(x, n)` on exact rationals. -/
def pyRound (n : ℕ) (x : ℚ) : ℚ := (roundHalfEven (x * 10 ^ n) : ℚ) / 10 ^ n

/-- Numeric threshold `1e-9` used by `run_underwriting` to guard divisions. -/
def eps : ℚ := 1 / 10 ^ 9

/-- Inputs of the pure underwriting calculator
(`underwriting.py`, dataclass `UnderwritingInputs`). -/
structure UnderwritingInputs where
  purchase_price : ℚ
  rehab : ℚ
  down_payment_pct : ℚ
  interest_rate : ℚ
  term_years : ℕ
  gross_rent : ℚ
  vacancy_rate : ℚ
  maintenance_rate : ℚ
  management_rate : ℚ
  capex_rate : ℚ
  insurance_monthly : ℚ
  taxes_monthly : ℚ
  utilities_monthly : ℚ
deriving DecidableEq

/-- Outputs of the underwriting calculator (`UnderwritingOutputs`).
Fields that the Python code sets to `float("inf")` when a denominator guard
fails are modelled as `Option ℚ`, with `none` standing for the infinite
"unbounded / no-debt" sentinel. -/
structure UnderwritingOutputs where
  mortgage_payment : ℚ
  operating_expenses : ℚ
  noi : ℚ
  cash_flow : ℚ
  dscr : Option ℚ
  cash_on_cash : Option ℚ
  break_even_rent : Option ℚ
  min_rent_for_target_roi : Option ℚ
deriving DecidableEq

/-- Translation of `_monthly_mortgage_payment(principal, annual_rate, term_years)`. -/
def monthlyMortgagePayment (principal annual_rate : ℚ) (term_years : ℕ) : ℚ :=
  if principal ≤ 0 then 0
  else
    let r := annual_rate / 12
    let n : ℕ := term_years * 12
    if r ≤ 0 then principal / (n : ℚ)
    else principal * (r * (1 + r) ^ n) / ((1 + r) ^ n - 1)

/-- Intermediate value `down_payment = all_in_cost * down_payment_pct` of
`run_underwriting`. -/
def downPaymentOf (inp : UnderwritingInputs) : ℚ :=
  (inp.purchase_price + inp.rehab) * inp.down_payment_pct

/-- Intermediate value `loan_amount = max(all_in_cost - down_payment, 0.0)`. -/
def loanAmountOf (inp : UnderwritingInputs) : ℚ :=
  max ((inp.purchase_price + inp.rehab) - downPaymentOf inp) 0

/-- Intermediate value `mortgage_payment` of `run_underwriting`, before rounding. -/
def mortgageOf (inp : UnderwritingInputs) : ℚ :=
  monthlyMortgagePayment (loanAmountOf inp) inp.interest_rate inp.term_years

/-- Intermediate value `effective_gross = gross_rent * (1.0 - vacancy_rate)`. -/
def effectiveGrossOf (inp : UnderwritingInputs) : ℚ :=
  inp.gross_rent * (1 - inp.vacancy_rate)

/-- Intermediate value `var_opex` of `run_underwriting`. -/
def varOpexOf (inp : UnderwritingInputs) : ℚ :=
  inp.gross_rent * inp.maintenance_rate + inp.gross_rent * inp.management_rate
    + inp.gross_rent * inp.capex_rate

/-- Intermediate value `fixed_opex = insurance + taxes + utilities`. -/
def fixedOpexOf (inp : UnderwritingInputs) : ℚ :=
  inp.insurance_monthly + inp.taxes_monthly + inp.utilities_monthly

/-- Intermediate value `operating_expenses = var_opex + fixed_opex`. -/
def operatingExpensesOf (inp : UnderwritingInputs) : ℚ :=
  varOpexOf inp + fixedOpexOf inp

/-- Intermediate value `noi = effective_gross - operating_expenses`. -/
def noiOf (inp : UnderwritingInputs) : ℚ :=
  effectiveGrossOf inp - operatingExpensesOf inp

/-- Intermediate value `cash_flow = noi - mortgage_payment`. -/
def cashFlowOf (inp : UnderwritingInputs) : ℚ :=
  noiOf inp - mortgageOf inp

/-- Translation of `run_underwriting(inp, target_roi)`, keeping the source's
guard structure: each ratio is computed only when its denominator exceeds the
`1e-9` threshold, and is the infinite sentinel (`none`) otherwise.  Rounding to
2 decimals for money and 3 for ratios happens on the returned record exactly as
in the source (`round(:, 2)` / `round(:, 3)` applied to finite values only). -/
def run_underwriting (inp : UnderwritingInputs) (target_roi : ℚ) : UnderwritingOutputs :=
  let mortgage_payment := mortgageOf inp
  let noi := noiOf inp
  let cash_flow := cashFlowOf inp
  let dscr : Option ℚ :=
    if eps < mortgage_payment then some (noi / mortgage_payment) else none
  let cash_invested := downPaymentOf inp
  let annual_cash_flow := cash_flow * 12
  let cash_on_cash : Option ℚ :=
    if eps < cash_invested then some (annual_cash_flow / cash_invested) else none
  let a := (1 - inp.vacancy_rate) - (inp.maintenance_rate + inp.management_rate + inp.capex_rate)
  let b := fixedOpexOf inp + mortgage_payment
  let break_even_rent : Option ℚ := if eps < a then some (b / a) else none
  let required_annual_cash_flow := target_roi * cash_invested
  let required_monthly_cash_flow := required_annual_cash_flow / 12
  let min_rent_for_target_roi : Option ℚ :=
    if eps < a then some ((fixedOpexOf inp + mortgage_payment + required_monthly_cash_flow) / a)
    else none
  { mortgage_payment := pyRound 2 mortgage_payment
    operating_expenses := pyRound 2 (operatingExpensesOf inp)
    noi := pyRound 2 noi
    cash_flow := pyRound 2 cash_flow
    dscr := dscr.map (pyRound 3)
    cash_on_cash := cash_on_cash.map (pyRound 3)
    break_even_rent := break_even_rent.map (pyRound 2)
    min_rent_for_target_roi := min_rent_for_target_roi.map (pyRound 2) }

/-- Deal context consumed by the rules engine
(`decision_engine.py`, dataclass `DealContext`). -/
structure DealContext where
  asking_price : ℚ
  bedrooms : ℤ
  has_garage : Bool
  rent_market : Option ℚ
  rent_ceiling : Option ℚ
  inventory_count : Option ℤ
  starbucks_minutes : Option ℤ
deriving DecidableEq

/-- Result of the rules engine (`decision_engine.py`, dataclass `Decision`). -/
structure Decision where
  decision : String
  score : ℤ
  reasons : List String
deriving DecidableEq

/-- Translation of `_rent_used(rent_market, rent_ceiling)`: the rent used for
underwriting is the minimum of market rent and ceiling when both are present,
whichever is present when only one is, and `None` when neither is. -/
def _rent_used : Option ℚ → Option ℚ → Option ℚ
  | none, none => none
  | none, some c => some c
  | some m, none => some m
  | some m, some c => some (min m c)

/-- Tail of `evaluate_deal_rules` after the rent-rule block: the ceiling-cap
flag, the inventory and Starbucks proxies, the `[0,100]` clamp and the
score banding.  `reasons`/`score` are the accumulator values reached after the
rent block of the Python function. -/
def afterRentChecks (s : Settings) (ctx : DealContext) (reasons : List String) (score : ℤ) :
    Decision :=
  let p1 : List String × ℤ :=
    match ctx.rent_market, ctx.rent_ceiling with
    | some m, some c =>
        if c < m then
          (reasons ++ ["Market rent exceeds Section 8 ceiling (rent will be capped)"], score - 5)
        else (reasons, score)
    | _, _ => (reasons, score)
  let p2 : List String × ℤ :=
    match ctx.inventory_count with
    | none => (p1.1 ++ ["Missing inventory count proxy"], p1.2 - 5)
    | some ic =>
        if ic < s.min_inventory then
          (p1.1 ++ ["Inventory proxy low (" ++ toString ic ++ " < " ++ toString s.min_inventory
            ++ ")"], p1.2 - 15)
        else (p1.1 ++ ["Inventory proxy healthy"], p1.2 + 10)
  let p3 : List String × ℤ :=
    match ctx.starbucks_minutes with
    | none => (p2.1, p2.2)
    | some mins =>
        if mins ≤ 10 then (p2.1 ++ ["Starbucks proxy good (<= 10 minutes)"], p2.2 + 10)
        else (p2.1 ++ ["Starbucks proxy weak (> 10 minutes)"], p2.2 - 5)
  let clamped := max 0 (min 100 p3.2)
  let decision := if 75 ≤ clamped then "PASS" else if 55 ≤ clamped then "REVIEW" else "REJECT"
  ⟨decision, clamped, p3.1⟩

/-- Translation of `evaluate_deal_rules(ctx)` from `decision_engine.py`:
hard price and bedroom gates first (score forced to 0, single reason, early
return), then the garage flag, the rent rules and the remaining proxies via
`afterRentChecks`. -/
def evaluate_deal_rules (s : Settings) (ctx : DealContext) : Decision :=
  if s.max_price < ctx.asking_price then
    ⟨"REJECT", 0, ["Price " ++ toString ctx.asking_price ++ " exceeds max $"
      ++ toString s.max_price]⟩
  else if ctx.bedrooms < s.min_bedrooms then
    ⟨"REJECT", 0, ["Bedrooms " ++ toString ctx.bedrooms ++ " below minimum "
      ++ toString s.min_bedrooms]⟩
  else
    let p0 : List String × ℤ :=
      if ctx.has_garage then (["Garage present (rehab/maintenance risk flag)"], 50 - 5)
      else ([], 50)
    match _rent_used ctx.rent_market ctx.rent_ceiling with
    | none =>
        afterRentChecks s ctx
          (p0.1 ++ ["Missing rent inputs (need market rent and/or FMR/ceiling)"]) (p0.2 - 20)
    | some rent =>
        let min_rent := ctx.asking_price * s.rent_rule_min_pct
        let target_rent := ctx.asking_price * s.rent_rule_target_pct
        if rent < min_rent then
          ⟨"REJECT", 0, ["Fails 1.3% rule: rent " ++ toString rent ++ " < "
            ++ toString min_rent]⟩
        else if target_rent ≤ rent then
          afterRentChecks s ctx (p0.1 ++ ["Meets 1.5% target rent rule"]) (p0.2 + 15)
        else
          afterRentChecks s ctx (p0.1 ++ ["Meets 1.3% minimum rent rule"]) (p0.2 + 5)

/-- Fields of the `Deal` ORM row read by the evaluate endpoint. -/
structure Deal where
  asking_price : ℚ
  estimated_purchase_price : Option ℚ
  rehab_estimate : ℚ
  interest_rate : ℚ
  term_years : ℕ
  down_payment_pct : ℚ
deriving DecidableEq

/-- Fields of the `Property` ORM row read by the evaluate endpoint. -/
structure PropertyRow where
  bedrooms : ℤ
  has_garage : Bool
deriving DecidableEq

/-- Fields of the `RentAssumption` ORM row read by the evaluate endpoint. -/
structure RentAssumption where
  market_rent_estimate : Option ℚ
  section8_fmr : Option ℚ
  approved_rent_ceiling : Option ℚ
  inventory_count : Option ℤ
  starbucks_minutes : Option ℤ
deriving DecidableEq

/-- Fields of the `JurisdictionRule` ORM row used by the decision core. -/
structure JurisdictionRule where
  rental_license_required : Bool
  processing_days : Option ℤ
deriving DecidableEq

/-- Value `rent_market` computed by `evaluate_deal`:
`ra.market_rent_estimate if ra else None`. -/
def rentMarketOf : Option RentAssumption → Option ℚ
  | none => none
  | some r => r.market_rent_estimate

/-- Value `rent_ceiling` computed by `evaluate_deal`: the manual
`approved_rent_ceiling` when present, else `section8_fmr`, else `None`. -/
def rentCeilingOf : Option RentAssumption → Option ℚ
  | none => none
  | some r =>
      match r.approved_rent_ceiling with
      | some c => some c
      | none => r.section8_fmr

/-- The `DealContext` built by `evaluate_deal` before calling the rules engine. -/
def ctxOf (deal : Deal) (prop : PropertyRow) (ra : Option RentAssumption) : DealContext where
  asking_price := deal.asking_price
  bedrooms := prop.bedrooms
  has_garage := prop.has_garage
  rent_market := rentMarketOf ra
  rent_ceiling := rentCeilingOf ra
  inventory_count := match ra with | none => none | some r => r.inventory_count
  starbucks_minutes := match ra with | none => none | some r => r.starbucks_minutes

/-- Value `gross_rent_used` computed by `evaluate_deal` once at least one rent
signal is present.  The `none`/`none` case is unreachable there (the endpoint
has already returned the missing-rent result); it is mapped to `0`. -/
def grossRentUsedOf : Option ℚ → Option ℚ → ℚ
  | none, some c => c
  | some m, none => m
  | some m, some c => min m c
  | none, none => 0

/-- Value `purchase` computed by `evaluate_deal`:
`deal.estimated_purchase_price if it is not None else deal.asking_price`. -/
def purchaseBasis (deal : Deal) : ℚ :=
  match deal.estimated_purchase_price with
  | some p => p
  | none => deal.asking_price

/-- The `UnderwritingInputs` record assembled by `evaluate_deal`: deal financing
terms plus the configured operating-cost defaults, with `purchase_price` taken
from `purchaseBasis` and `gross_rent` from the resolved `gross_rent_used`. -/
def uwInputsOf (s : Settings) (deal : Deal) (gross_rent : ℚ) : UnderwritingInputs where
  purchase_price := purchaseBasis deal
  rehab := deal.rehab_estimate
  down_payment_pct := deal.down_payment_pct
  interest_rate := deal.interest_rate
  term_years := deal.term_years
  gross_rent := gross_rent
  vacancy_rate := s.vacancy_rate
  maintenance_rate := s.maintenance_rate
  management_rate := s.management_rate
  capex_rate := s.capex_rate
  insurance_monthly := s.insurance_monthly
  taxes_monthly := s.taxes_monthly
  utilities_monthly := s.utilities_monthly

/-- Mutable triple `(final_decision, final_score, reasons)` threaded through the
post-rules gates of `evaluate_deal`. -/
structure Verdict where
  decision : String
  score : ℤ
  reasons : List String
deriving DecidableEq

/-- Boolean comparison `uw_out.dscr < threshold` of `evaluate_deal`; the
infinite sentinel (`none`, Python `float("inf")`) compares greater than any
threshold, so the gate does not fire on it. -/
def dscrBelow (dscr : Option ℚ) (threshold : ℚ) : Bool :=
  match dscr with
  | none => false
  | some x => decide (x < threshold)

/-- Rendering of an underwriting ratio for a reason string (`inf` for the
unbounded sentinel). -/
def ratioStr : Option ℚ → String
  | none => "inf"
  | some x => toString x

/-- DSCR and cash-flow gates of `evaluate_deal`: DSCR below the minimum forces
REJECT and caps the score at 45; otherwise cash flow below target downgrades a
non-REJECT decision to REVIEW and caps the score at 65. -/
def dscrCashflowGate (s : Settings) (uw : UnderwritingOutputs) (v : Verdict) : Verdict :=
  if dscrBelow uw.dscr s.dscr_min then
    ⟨"REJECT", min v.score 45,
      v.reasons ++ ["DSCR " ++ ratioStr uw.dscr ++ " below minimum " ++ toString s.dscr_min]⟩
  else if uw.cash_flow < s.target_monthly_cashflow then
    ⟨if v.decision = "REJECT" then "REJECT" else "REVIEW", min v.score 65,
      v.reasons ++ ["Cash flow $" ++ toString uw.cash_flow ++ " below target $"
        ++ toString s.target_monthly_cashflow]⟩
  else v

/-- Jurisdiction gate of `evaluate_deal`: when a rule for the property's
(city, state) exists and its `processing_days` is at least 45, a delay-risk
reason is appended, and a PASS decision is downgraded to REVIEW with the score
capped at 70.  When no rule exists, nothing happens. -/
def jurisdictionGate (jr : Option JurisdictionRule) (v : Verdict) : Verdict :=
  match jr with
  | none => v
  | some j =>
      match j.processing_days with
      | none => v
      | some pd =>
          if 45 ≤ pd then
            ⟨if v.decision = "PASS" then "REVIEW" else v.decision,
              if v.decision = "PASS" then min v.score 70 else v.score,
              v.reasons ++ ["Jurisdiction processing delay risk (" ++ toString pd ++ " days)"]⟩
          else v

/-- Persisted `UnderwritingResult` row (fields computed by `evaluate_deal`). -/
structure EvalResult where
  decision : String
  score : ℤ
  reasons : List String
  gross_rent_used : ℚ
  mortgage_payment : ℚ
  operating_expenses : ℚ
  noi : ℚ
  cash_flow : ℚ
  dscr : Option ℚ
  cash_on_cash : Option ℚ
  break_even_rent : Option ℚ
  min_rent_for_target_roi : Option ℚ
deriving DecidableEq

/-- Translation of the `evaluate_deal` endpoint (`routers/evaluate.py`) for a
deal and property that exist: the database lookups are modelled by the
`Option RentAssumption` and `Option JurisdictionRule` arguments.  When both
rent signals are missing the endpoint persists an all-zero REJECT row; the
Python code stores `0.0` in every numeric column there, modelled as `some 0`
for the sentinel-capable columns. -/
def evaluate_deal (s : Settings) (deal : Deal) (prop : PropertyRow)
    (ra : Option RentAssumption) (jr : Option JurisdictionRule) : EvalResult :=
  let rent_market := rentMarketOf ra
  let rent_ceiling := rentCeilingOf ra
  let d := evaluate_deal_rules s (ctxOf deal prop ra)
  if rent_market = none ∧ rent_ceiling = none then
    { decision := "REJECT", score := 0
      reasons := d.reasons ++ ["Missing rent data -> cannot underwrite"]
      gross_rent_used := 0, mortgage_payment := 0, operating_expenses := 0, noi := 0
      cash_flow := 0, dscr := some 0, cash_on_cash := some 0, break_even_rent := some 0
      min_rent_for_target_roi := some 0 }
  else
    let gross := grossRentUsedOf rent_market rent_ceiling
    let uw_out := run_underwriting (uwInputsOf s deal gross) s.target_roi
    let v := jurisdictionGate jr (dscrCashflowGate s uw_out ⟨d.decision, d.score, d.reasons⟩)
    { decision := v.decision, score := v.score, reasons := v.reasons
      gross_rent_used := gross
      mortgage_payment := uw_out.mortgage_payment
      operating_expenses := uw_out.operating_expenses
      noi := uw_out.noi
      cash_flow := uw_out.cash_flow
      dscr := uw_out.dscr
      cash_on_cash := uw_out.cash_on_cash
      break_even_rent := uw_out.break_even_rent
      min_rent_for_target_roi := uw_out.min_rent_for_target_roi }

/-- Modelled from the spec: the RentResolver `rent_is_estimated` flag and step 4
of the DecisionRulesEngine (spec §4.1 item 6 and §4.4 step 4) are not present in
the sources (the scaffold `decision_engine.py` has no estimated-rent field);
only the spec describes them.  When the rent used was flagged as estimated, the
decision is capped at REVIEW: a PASS verdict becomes REVIEW, any other verdict
is left unchanged. -/
def capAtReviewIfEstimated (d : Decision) (rent_is_estimated : Bool) : Decision :=
  if rent_is_estimated ∧ d.decision = "PASS" then ⟨"REVIEW", d.score, d.reasons⟩ else d

/-- Modelled from the spec: the JurisdictionFrictionModel (spec §4.3) is not
present in the sources (only the frontend consumes a `jurisdiction_friction`
object).  Baseline multiplier `1.0`; `+0.10` when a rental license is required;
`+0.10` and a delay-risk reason when processing takes at least 45 days; an
unknown rule keeps the neutral multiplier `1.0` and always appends the reason
`"jurisdiction rules unknown"`. -/
def jurisdictionFriction : Option JurisdictionRule → ℚ × List String
  | none => (1, ["jurisdiction rules unknown"])
  | some j =>
      let p1 : ℚ × List String :=
        if j.rental_license_required then (1 + 10 / 100, ["rental license required"])
        else (1, [])
      match j.processing_days with
      | none => p1
      | some pd =>
          if 45 ≤ pd then (p1.1 + 10 / 100, p1.2 ++ ["processing delay risk"]) else p1

/-- Outcome record of the enrichment batch phase (spec §4.5 and §6,
`enrich_batch`). -/
structure EnrichBatchResult where
  attempted : ℕ
  enriched : ℕ
  stopped_early : Bool
  stop_reason : Option String
deriving DecidableEq

/-- Modelled from the spec: the BudgetTracker-gated enrichment loop of the
BatchPipelineOrchestrator (spec §4.5 phase 1) is not present in the sources
(only the shell scripts call `POST /rent/enrich/batch`).  Starting from `used`
provider calls already spent, each deal needing enrichment is admitted while
`used < quota` (check-then-increment); hitting the quota mid-batch stops the
loop early.  Returns the final usage counter and whether the batch stopped
early. -/
def enrichLoop (quota : ℕ) : ℕ → List ℕ → ℕ × Bool
  | used, [] => (used, false)
  | used, _ :: rest => if used < quota then enrichLoop quota (used + 1) rest else (used, true)

/-- Modelled from the spec: `enrich_batch(snapshot_id, limit, strategy)`
(spec §6) runs the budget-gated enrichment loop over the deals of the snapshot
that need enrichment, with the usage counter starting at zero, and reports
`stop_reason = "budget_exceeded"` exactly when the loop stopped early. -/
def enrich_batch (quota : ℕ) (deals : List ℕ) : EnrichBatchResult :=
  let r := enrichLoop quota 0 deals
  { attempted := deals.length
    enriched := r.1
    stopped_early := r.2
    stop_reason := if r.2 then some "budget_exceeded" else none }

/-- The post-rent checks only append reasons to the accumulator. -/
lemma afterRentChecks_reasons (s : Settings) (ctx : DealContext) (rs : List String) (sc : ℤ) :
    ∃ t, (afterRentChecks s ctx rs sc).reasons = rs ++ t := by
  obtain ⟨ap, bd, hg, rm, rc, ic, sm⟩ := ctx
  unfold afterRentChecks
  rcases rm with _ | m <;> rcases rc with _ | c <;> rcases ic with _ | iv <;>
    rcases sm with _ | mins <;> dsimp only <;> (try split_ifs) <;>
    simp [List.append_assoc, List.append_right_inj]

/-- The post-rent checks keep a non-empty accumulator non-empty. -/
lemma afterRentChecks_reasons_ne_nil (s : Settings) (ctx : DealContext) (rs : List String)
    (sc : ℤ) (h : rs ≠ []) : (afterRentChecks s ctx rs sc).reasons ≠ [] := by
  obtain ⟨t, ht⟩ := afterRentChecks_reasons s ctx rs sc
  rw [ht]
  intro hc
  exact h (List.append_eq_nil.mp hc).1

/-- The rules engine always records at least one reason. -/
lemma evaluate_deal_rules_reasons_ne_nil (s : Settings) (ctx : DealContext) :
    (evaluate_deal_rules s ctx).reasons ≠ [] := by
  unfold evaluate_deal_rules
  split_ifs with h1 h2 hg
  · simp
  · simp
  all_goals
    rcases hru : _rent_used ctx.rent_market ctx.rent_ceiling with _ | rent <;>
      simp only [hru]
  · exact afterRentChecks_reasons_ne_nil s ctx _ _ (by simp)
  · split_ifs with hr1 hr2
    · simp
    · exact afterRentChecks_reasons_ne_nil s ctx _ _ (by simp)
    · exact afterRentChecks_reasons_ne_nil s ctx _ _ (by simp)
  · exact afterRentChecks_reasons_ne_nil s ctx _ _ (by simp)
  · split_ifs with hr1 hr2
    · simp
    · exact afterRentChecks_reasons_ne_nil s ctx _ _ (by simp)
    · exact afterRentChecks_reasons_ne_nil s ctx _ _ (by simp)

/-- The DSCR/cash-flow gates only append reasons. -/
lemma dscrCashflowGate_reasons (s : Settings) (uw : UnderwritingOutputs) (v : Verdict) :
    ∃ t, (dscrCashflowGate s uw v).reasons = v.reasons ++ t := by
  unfold dscrCashflowGate
  split_ifs <;> simp [List.append_assoc, List.append_right_inj]

/-- The jurisdiction gate only appends reasons. -/
lemma jurisdictionGate_reasons (jr : Option JurisdictionRule) (v : Verdict) :
    ∃ t, (jurisdictionGate jr v).reasons = v.reasons ++ t := by
  unfold jurisdictionGate
  rcases jr with _ | ⟨lic, pdays⟩
  · exact ⟨[], by simp⟩
  · rcases pdays with _ | pd <;> dsimp only
    · exact ⟨[], by simp⟩
    · split_ifs <;> simp [List.append_assoc, List.append_right_inj]

/-- A REJECT verdict with score 0 survives the DSCR and cash-flow gates. -/
lemma dscrCashflowGate_reject (s : Settings) (uw : UnderwritingOutputs) (v : Verdict)
    (hd : v.decision = "REJECT") (hs : v.score = 0) :
    (dscrCashflowGate s uw v).decision = "REJECT" ∧ (dscrCashflowGate s uw v).score = 0 := by
  unfold dscrCashflowGate
  split_ifs <;> constructor <;> simp [hd, hs]

/-- A non-PASS verdict is not modified in decision or score by the
jurisdiction gate. -/
lemma jurisdictionGate_nonpass (jr : Option JurisdictionRule) (v : Verdict)
    (hd : v.decision ≠ "PASS") :
    (jurisdictionGate jr v).decision = v.decision ∧ (jurisdictionGate jr v).score = v.score := by
  unfold jurisdictionGate
  rcases jr with _ | ⟨lic, pdays⟩
  · exact ⟨rfl, rfl⟩
  · rcases pdays with _ | pd <;> dsimp only
    · exact ⟨rfl, rfl⟩
    · split_ifs <;> simp [hd]

/-- Composition of the two post-rules gates only appends reasons. -/
lemma gates_reasons (s : Settings) (uw : UnderwritingOutputs) (jr : Option JurisdictionRule)
    (v : Verdict) :
    ∃ t, (jurisdictionGate jr (dscrCashflowGate s uw v)).reasons = v.reasons ++ t := by
  obtain ⟨t1, ht1⟩ := dscrCashflowGate_reasons s uw v
  obtain ⟨t2, ht2⟩ := jurisdictionGate_reasons jr (dscrCashflowGate s uw v)
  exact ⟨t1 ++ t2, by rw [ht2, ht1, List.append_assoc]⟩

/-- C6: every evaluation run persists a non-empty ordered reason list — in
fact unconditionally, hence in particular whenever the decision is not PASS:
the rules engine always records at least one reason and every later gate only
appends to the list. -/
theorem C6_reasons_nonempty (s : Settings) (deal : Deal) (prop : PropertyRow)
    (ra : Option RentAssumption) (jr : Option JurisdictionRule) :
    (evaluate_deal s deal prop ra jr).reasons ≠ [] := by
  unfold evaluate_deal
  dsimp only
  split_ifs with h
  · simp
  · obtain ⟨t, ht⟩ := gates_reasons s _ jr _
    rw [ht]
    intro hc
    exact evaluate_deal_rules_reasons_ne_nil s (ctxOf deal prop ra)
      (List.append_eq_nil.mp hc).1

/-- C3: whenever the rent used was flagged as estimated, the decision produced
for the rules verdict is never PASS — the estimated-rent cap turns a PASS into
REVIEW and leaves every other verdict (already not PASS) unchanged. -/
theorem C3_estimated_never_pass (s : Settings) (ctx : DealContext) :
    (capAtReviewIfEstimated (evaluate_deal_rules s ctx) true).decision ≠ "PASS" := by
  unfold capAtReviewIfEstimated
  split_ifs with h
  · simp
  · intro hc
    exact h ⟨rfl, hc⟩

/-- C7: when the property's (city, state) has no JurisdictionRule, the friction
multiplier stays at the neutral 1.0 and the reason "jurisdiction rules unknown"
is appended — an unknown jurisdiction is never silently zero friction. -/
theorem C7_unknown_jurisdiction_neutral :
    (jurisdictionFriction none).1 = 1 ∧
    "jurisdiction rules unknown" ∈ (jurisdictionFriction none).2 := by
  constructor <;> simp [jurisdictionFriction]

/-- The enrichment loop never pushes the usage counter past the quota. -/
lemma enrichLoop_le (quota : ℕ) :
    ∀ (deals : List ℕ) (used : ℕ), used ≤ quota → (enrichLoop quota used deals).1 ≤ quota := by
  intro deals
  induction deals with
  | nil => intro used h; simpa [enrichLoop] using h
  | cons d rest ih =>
      intro used h
      unfold enrichLoop
      split_ifs with hlt
      · exact ih (used + 1) hlt
      · simpa using h

/-- When strictly more deals remain than budget, the enrichment loop ends
exactly at the quota and reports an early stop. -/
lemma enrichLoop_exceeds (quota : ℕ) :
    ∀ (deals : List ℕ) (used : ℕ), used ≤ quota → quota - used < deals.length →
      enrichLoop quota used deals = (quota, true) := by
  intro deals
  induction deals with
  | nil => intro used h hlen; simp at hlen
  | cons d rest ih =>
      intro used h hlen
      unfold enrichLoop
      split_ifs with hlt
      · apply ih (used + 1) hlt
        simp only [List.length_cons] at hlen
        omega
      · have hq : used = quota := le_antisymm h (not_lt.mp hlt)
        simp [hq]

/-- C9: the number of successful enrichment calls never exceeds the quota, and
when more deals need enrichment than the quota allows, exactly `quota` calls
succeed and the batch reports `stopped_early = true` with
`stop_reason = "budget_exceeded"`. -/
theorem C9_budget_ceiling (quota : ℕ) (deals : List ℕ) :
    (enrich_batch quota deals).enriched ≤ quota ∧
    (quota < deals.length →
      (enrich_batch quota deals).enriched = quota ∧
      (enrich_batch quota deals).stopped_early = true ∧
      (enrich_batch quota deals).stop_reason = some "budget_exceeded") := by
  constructor
  · have h := enrichLoop_le quota deals 0 (Nat.zero_le _)
    simpa [enrich_batch] using h
  · intro h
    have he := enrichLoop_exceeds quota deals 0 (Nat.zero_le _) (by omega)
    simp [enrich_batch, he]

/-- C9 witness: with quota 3 and 5 deals needing enrichment, exactly 3 calls
succeed and the batch stops early with reason "budget_exceeded". -/
theorem C9_budget_ceiling_witness :
    (enrich_batch 3 [1, 2, 3, 4, 5]).enriched = 3 ∧
    (enrich_batch 3 [1, 2, 3, 4, 5]).stopped_early = true ∧
    (enrich_batch 3 [1, 2, 3, 4, 5]).stop_reason = some "budget_exceeded" :=
  (C9_budget_ceiling 3 [1, 2, 3, 4, 5]).2 (by decide)

/-- C1: when both a market rent estimate and an approved rent ceiling are
present, the persisted `gross_rent_used` equals `min(market, ceiling)`, it is
exactly the gross rent fed to the underwriting calculator, and it is never the
raw market rent when a strictly lower ceiling applies. -/
theorem C1_rent_capped_at_ceiling (s : Settings) (deal : Deal) (prop : PropertyRow)
    (r : RentAssumption) (jr : Option JurisdictionRule) (m c : ℚ)
    (hm : r.market_rent_estimate = some m) (hc : r.approved_rent_ceiling = some c) :
    (evaluate_deal s deal prop (some r) jr).gross_rent_used = min m c ∧
    (evaluate_deal s deal prop (some r) jr).mortgage_payment =
      (run_underwriting (uwInputsOf s deal (min m c)) s.target_roi).mortgage_payment ∧
    (c < m → (evaluate_deal s deal prop (some r) jr).gross_rent_used ≠ m) := by
  have hg : (evaluate_deal s deal prop (some r) jr).gross_rent_used = min m c := by
    simp [evaluate_deal, rentMarketOf, rentCeilingOf, hm, hc, grossRentUsedOf]
  refine ⟨hg, ?_, ?_⟩
  · simp [evaluate_deal, rentMarketOf, rentCeilingOf, hm, hc, grossRentUsedOf]
  · intro hlt
    rw [hg, min_eq_right hlt.le]
    exact ne_of_lt hlt

/-- Deal row used by concrete evaluations: no estimated purchase price, zero
rate so that the amortisation reduces to straight division. -/
def w1Deal : Deal := ⟨100000, none, 0, 0, 30, 1⟩

/-- Property row used by concrete evaluations. -/
def w1Prop : PropertyRow := ⟨3, false⟩

/-- Rent assumption with market rent 1200 above the approved ceiling 1000. -/
def w1Ra : RentAssumption := ⟨some 1200, none, some 1000, none, none⟩

/-- C1 witness: market 1200 capped by ceiling 1000 — the persisted
`gross_rent_used` is 1000, not the raw market rent. -/
theorem C1_rent_capped_at_ceiling_witness :
    (evaluate_deal settings w1Deal w1Prop (some w1Ra) none).gross_rent_used = 1000 ∧
    (evaluate_deal settings w1Deal w1Prop (some w1Ra) none).gross_rent_used ≠ 1200 := by
  have h := C1_rent_capped_at_ceiling settings w1Deal w1Prop w1Ra none 1200 1000 rfl rfl
  constructor
  · rw [h.1]
    norm_num [min_def]
  · exact h.2.2 (by norm_num)

/-- C10: the purchase price fed into the underwriting calculation is the deal's
`estimated_purchase_price` when that field is set and the `asking_price`
otherwise, and the persisted mortgage payment of a rent-bearing evaluation is
exactly the calculator output on those inputs. -/
theorem C10_purchase_price_fallback (s : Settings) (deal : Deal) (prop : PropertyRow)
    (r : RentAssumption) (jr : Option JurisdictionRule) (m p : ℚ)
    (hm : r.market_rent_estimate = some m) :
    (evaluate_deal s deal prop (some r) jr).mortgage_payment =
      (run_underwriting (uwInputsOf s deal
        (grossRentUsedOf (some m) (rentCeilingOf (some r)))) s.target_roi).mortgage_payment ∧
    (deal.estimated_purchase_price = some p →
      (uwInputsOf s deal
        (grossRentUsedOf (some m) (rentCeilingOf (some r)))).purchase_price = p) ∧
    (deal.estimated_purchase_price = none →
      (uwInputsOf s deal
        (grossRentUsedOf (some m) (rentCeilingOf (some r)))).purchase_price
        = deal.asking_price) := by
  refine ⟨?_, ?_, ?_⟩
  · simp [evaluate_deal, rentMarketOf, hm]
  · intro h
    simp [uwInputsOf, purchaseBasis, h]
  · intro h
    simp [uwInputsOf, purchaseBasis, h]

/-- Deal row with an estimated purchase price differing from the asking price. -/
def w10Deal : Deal := ⟨100000, some 90000, 0, 0, 30, 1⟩

/-- C10 witness: with `estimated_purchase_price = 90000` and
`asking_price = 100000`, underwriting is based on 90000. -/
theorem C10_purchase_price_fallback_witness :
    (evaluate_deal settings w10Deal w1Prop (some w1Ra) none).mortgage_payment =
      (run_underwriting (uwInputsOf settings w10Deal
        (grossRentUsedOf (some 1200) (rentCeilingOf (some w1Ra))))
        settings.target_roi).mortgage_payment ∧
    (uwInputsOf settings w10Deal
      (grossRentUsedOf (some 1200) (rentCeilingOf (some w1Ra)))).purchase_price = 90000 := by
  have h := C10_purchase_price_fallback settings w10Deal w1Prop w1Ra none 1200 90000 rfl
  exact ⟨h.1, h.2.1 rfl⟩

/-- C4: a deal with no rent signal at all evaluates to a REJECT with score 0
(never an exception), the persisted reason list contains the explicit
missing-rent-data reason, and — whenever no hard price/bedroom gate fired
first — also the rules engine's "Missing rent inputs" reason. -/
theorem C4_missing_rent_rejects (s : Settings) (deal : Deal) (prop : PropertyRow)
    (ra : Option RentAssumption) (jr : Option JurisdictionRule)
    (hm : rentMarketOf ra = none) (hc : rentCeilingOf ra = none) :
    (evaluate_deal s deal prop ra jr).decision = "REJECT" ∧
    (evaluate_deal s deal prop ra jr).score = 0 ∧
    "Missing rent data -> cannot underwrite" ∈ (evaluate_deal s deal prop ra jr).reasons ∧
    (deal.asking_price ≤ s.max_price → s.min_bedrooms ≤ prop.bedrooms →
      "Missing rent inputs (need market rent and/or FMR/ceiling)"
        ∈ (evaluate_deal s deal prop ra jr).reasons) := by
  have hres : (evaluate_deal s deal prop ra jr).decision = "REJECT" ∧
      (evaluate_deal s deal prop ra jr).score = 0 ∧
      (evaluate_deal s deal prop ra jr).reasons =
        (evaluate_deal_rules s (ctxOf deal prop ra)).reasons
          ++ ["Missing rent data -> cannot underwrite"] := by
    unfold evaluate_deal
    dsimp only
    rw [if_pos ⟨hm, hc⟩]
    exact ⟨rfl, rfl, rfl⟩
  refine ⟨hres.1, hres.2.1, ?_, ?_⟩
  · rw [hres.2.2]
    simp
  · intro h1 h2
    rw [hres.2.2]
    apply List.mem_append_left
    unfold evaluate_deal_rules
    have h1a : ¬ s.max_price < (ctxOf deal prop ra).asking_price := not_lt.mpr h1
    have h2a : ¬ (ctxOf deal prop ra).bedrooms < s.min_bedrooms := not_lt.mpr h2
    rw [if_neg h1a, if_neg h2a]
    have hru : _rent_used (ctxOf deal prop ra).rent_market (ctxOf deal prop ra).rent_ceiling
        = none := by
      show _rent_used (rentMarketOf ra) (rentCeilingOf ra) = none
      rw [hm, hc]
      rfl
    simp only [hru]
    obtain ⟨t, ht⟩ := afterRentChecks_reasons s (ctxOf deal prop ra) _ _
    rw [ht]
    apply List.mem_append_left
    apply List.mem_append_right
    simp

/-- C4 witness: evaluating with no RentAssumption row at all yields REJECT,
score 0, and both missing-rent reasons. -/
theorem C4_missing_rent_rejects_witness :
    (evaluate_deal settings w1Deal w1Prop none none).decision = "REJECT" ∧
    (evaluate_deal settings w1Deal w1Prop none none).score = 0 ∧
    "Missing rent data -> cannot underwrite"
      ∈ (evaluate_deal settings w1Deal w1Prop none none).reasons ∧
    "Missing rent inputs (need market rent and/or FMR/ceiling)"
      ∈ (evaluate_deal settings w1Deal w1Prop none none).reasons := by
  have h := C4_missing_rent_rejects settings w1Deal w1Prop none none rfl rfl
  exact ⟨h.1, h.2.1, h.2.2.1,
    h.2.2.2 (by norm_num [settings, w1Deal]) (by norm_num [settings, w1Prop])⟩

/-- C2 (amended): a deal whose asking price exceeds the configured maximum is
hard-rejected by the rules engine with exactly one reason and the remaining
rules skipped, and no later gate (DSCR, cash flow, jurisdiction) changes the
REJECT decision or the score 0 of the persisted result. -/
theorem C2_price_gate_reject (s : Settings) (deal : Deal) (prop : PropertyRow)
    (ra : Option RentAssumption) (jr : Option JurisdictionRule)
    (h : s.max_price < deal.asking_price) :
    (evaluate_deal_rules s (ctxOf deal prop ra)).reasons.length = 1 ∧
    (evaluate_deal s deal prop ra jr).decision = "REJECT" ∧
    (evaluate_deal s deal prop ra jr).score = 0 := by
  have ha : s.max_price < (ctxOf deal prop ra).asking_price := h
  have hd : evaluate_deal_rules s (ctxOf deal prop ra) =
      ⟨"REJECT", 0, ["Price " ++ toString (ctxOf deal prop ra).asking_price
        ++ " exceeds max $" ++ toString s.max_price]⟩ := by
    unfold evaluate_deal_rules
    rw [if_pos ha]
  refine ⟨by rw [hd]; rfl, ?_⟩
  unfold evaluate_deal
  dsimp only
  split_ifs with hr
  · exact ⟨rfl, rfl⟩
  · simp only [hd]
    obtain ⟨hd1, hs1⟩ := dscrCashflowGate_reject s
      (run_underwriting (uwInputsOf s deal
        (grossRentUsedOf (rentMarketOf ra) (rentCeilingOf ra))) s.target_roi)
      ⟨"REJECT", 0, ["Price " ++ toString (ctxOf deal prop ra).asking_price
        ++ " exceeds max $" ++ toString s.max_price]⟩ rfl rfl
    obtain ⟨hd2, hs2⟩ := jurisdictionGate_nonpass jr _ (by rw [hd1]; simp)
    constructor
    · rw [hd2, hd1]
    · rw [hs2, hs1]

/-- Deal row with asking price 200000 above the configured maximum 150000;
zero interest rate so the amortisation evaluates by straight division. -/
def c2Deal : Deal := ⟨200000, none, 0, 0, 30, 1 / 5⟩

/-- Rent assumption with only a market rent, used by the C2 counterexample. -/
def c2Ra : RentAssumption := ⟨some 1000, none, none, none, none⟩

/-- C2 counterexample: with rent data present, the price-gated evaluation still
rejects with score 0, but the persisted reason list has two entries (the DSCR
gate appends a second reason after the hard price reject), so "exactly one
reason" fails for the full evaluation. -/
theorem C2_price_gate_counterexample :
    (evaluate_deal settings c2Deal w1Prop (some c2Ra) none).decision = "REJECT" ∧
    (evaluate_deal settings c2Deal w1Prop (some c2Ra) none).score = 0 ∧
    (evaluate_deal settings c2Deal w1Prop (some c2Ra) none).reasons.length = 2 := by
  norm_num [evaluate_deal, evaluate_deal_rules, afterRentChecks, ctxOf, rentMarketOf,
    rentCeilingOf, grossRentUsedOf, uwInputsOf, purchaseBasis, run_underwriting,
    mortgageOf, loanAmountOf, downPaymentOf, monthlyMortgagePayment, noiOf,
    effectiveGrossOf, operatingExpensesOf, varOpexOf, fixedOpexOf, cashFlowOf,
    dscrCashflowGate, jurisdictionGate, dscrBelow, eps, pyRound, roundHalfEven,
    _rent_used, settings, c2Deal, c2Ra, w1Prop, max_def, min_def]
  simp

/-- C2 witness: asking price 200000 against maximum 150000 with no rent row —
one hard-reject reason from the rules, REJECT with score 0 persisted. -/
theorem C2_price_gate_reject_witness :
    (evaluate_deal_rules settings (ctxOf c2Deal w1Prop none)).reasons.length = 1 ∧
    (evaluate_deal settings c2Deal w1Prop none none).decision = "REJECT" ∧
    (evaluate_deal settings c2Deal w1Prop none none).score = 0 :=
  C2_price_gate_reject settings c2Deal w1Prop none none (by norm_num [settings, c2Deal])

/-- C5 (amended): the calculator is a total function — a zero mortgage payment
or zero down payment yields the unbounded sentinel instead of a division
error — and the persisted DSCR equals `noi / mortgage_payment` (rounded to 3
decimals) whenever the mortgage payment exceeds the `1e-9` guard threshold. -/
theorem C5_division_guards (inp : UnderwritingInputs) (roi : ℚ) :
    (mortgageOf inp = 0 → (run_underwriting inp roi).dscr = none) ∧
    (downPaymentOf inp = 0 → (run_underwriting inp roi).cash_on_cash = none) ∧
    (eps < mortgageOf inp →
      (run_underwriting inp roi).dscr = some (pyRound 3 (noiOf inp / mortgageOf inp))) := by
  refine ⟨?_, ?_, ?_⟩
  · intro h
    unfold run_underwriting
    dsimp only
    rw [h, if_neg (by norm_num [eps])]
    rfl
  · intro h
    unfold run_underwriting
    dsimp only
    rw [h, if_neg (by norm_num [eps])]
    rfl
  · intro h
    unfold run_underwriting
    dsimp only
    rw [if_pos h]
    rfl

/-- Input with a positive but sub-epsilon mortgage payment: purchase price
`1e-9`, no down payment, zero rate, so the monthly payment is `1e-9 / 360`. -/
def c5Inp : UnderwritingInputs := ⟨1 / 10 ^ 9, 0, 0, 0, 30, 1000, 0, 0, 0, 0, 0, 0, 0⟩

/-- C5 counterexample: the mortgage payment is strictly positive, yet the
calculator returns the unbounded sentinel rather than `noi / mortgage_payment`
— the claim's "whenever mortgage_payment is positive" fails on payments at or
below the `1e-9` guard. -/
theorem C5_division_guards_counterexample :
    0 < mortgageOf c5Inp ∧ (run_underwriting c5Inp settings.target_roi).dscr = none := by
  constructor
  · norm_num [mortgageOf, loanAmountOf, downPaymentOf, monthlyMortgagePayment, c5Inp,
      max_def]
  · have h : ¬ eps < mortgageOf c5Inp := by
      norm_num [mortgageOf, loanAmountOf, downPaymentOf, monthlyMortgagePayment, c5Inp,
        eps, max_def]
    unfold run_underwriting
    dsimp only
    rw [if_neg h]
    rfl

/-- Debt-free input: zero purchase price gives a zero loan and zero payment. -/
def c5ZeroInp : UnderwritingInputs := ⟨0, 0, 0, 0, 30, 1000, 0, 0, 0, 0, 0, 0, 0⟩

/-- All-cash-free input with a clearly positive payment: loan 72000 at zero
rate over 30 years pays 200 per month; no down payment. -/
def c5PosInp : UnderwritingInputs := ⟨72000, 0, 0, 0, 30, 1000, 0, 0, 0, 0, 0, 0, 0⟩

/-- C5 witness: a zero payment yields the DSCR sentinel, a zero down payment
yields the cash-on-cash sentinel, and a positive payment of 200 yields
`dscr = round3(noi / 200)`. -/
theorem C5_division_guards_witness :
    (run_underwriting c5ZeroInp settings.target_roi).dscr = none ∧
    (run_underwriting c5PosInp settings.target_roi).cash_on_cash = none ∧
    (run_underwriting c5PosInp settings.target_roi).dscr
      = some (pyRound 3 (noiOf c5PosInp / mortgageOf c5PosInp)) := by
  refine ⟨(C5_division_guards c5ZeroInp settings.target_roi).1 ?_,
    (C5_division_guards c5PosInp settings.target_roi).2.1 ?_,
    (C5_division_guards c5PosInp settings.target_roi).2.2 ?_⟩
  · norm_num [mortgageOf, loanAmountOf, downPaymentOf, monthlyMortgagePayment, c5ZeroInp,
      max_def]
  · norm_num [downPaymentOf, c5PosInp]
  · norm_num [mortgageOf, loanAmountOf, downPaymentOf, monthlyMortgagePayment, c5PosInp,
      eps, max_def]

/-- The example scenario of the spec (§8): purchase 100000, rehab 10000, 20%
down, 7% over 30 years, gross rent 1400 and the configured default cost rates. -/
def c8Inp : UnderwritingInputs where
  purchase_price := 100000
  rehab := 10000
  down_payment_pct := 20 / 100
  interest_rate := 7 / 100
  term_years := 30
  gross_rent := 1400
  vacancy_rate := 5 / 100
  maintenance_rate := 10 / 100
  management_rate := 8 / 100
  capex_rate := 5 / 100
  insurance_monthly := 150
  taxes_monthly := 300
  utilities_monthly := 0

/-- C8 counterexample: on the spec's example scenario the calculator does not
produce the spec's expected values — the mortgage payment is not 586.15 and
the operating expenses are not 482.80. -/
theorem C8_example_scenario_counterexample :
    (run_underwriting c8Inp settings.target_roi).mortgage_payment ≠ 58615 / 100 ∧
    (run_underwriting c8Inp settings.target_roi).operating_expenses ≠ 48280 / 100 := by
  constructor
  · norm_num [run_underwriting, mortgageOf, loanAmountOf, downPaymentOf,
      monthlyMortgagePayment, pyRound, roundHalfEven, c8Inp, max_def]
  · norm_num [run_underwriting, operatingExpensesOf, varOpexOf, fixedOpexOf, pyRound,
      roundHalfEven, c8Inp]

/-- C8 (amended): on the example scenario the calculator produces, under exact
rational arithmetic, mortgage_payment = 585.47, operating_expenses = 772.00
(fixed 450 plus variable 1400 × 0.23 = 322), noi = 558, cash_flow = −27.47,
dscr = 0.953 and cash_on_cash = −0.015, all per the §4.2 formulas. -/
theorem C8_example_scenario :
    (run_underwriting c8Inp settings.target_roi).mortgage_payment = 58547 / 100 ∧
    (run_underwriting c8Inp settings.target_roi).operating_expenses = 772 ∧
    (run_underwriting c8Inp settings.target_roi).noi = 558 ∧
    (run_underwriting c8Inp settings.target_roi).noi
      = pyRound 2 (effectiveGrossOf c8Inp - operatingExpensesOf c8Inp) ∧
    (run_underwriting c8Inp settings.target_roi).cash_flow = -2747 / 100 ∧
    (run_underwriting c8Inp settings.target_roi).dscr = some (953 / 1000) ∧
    (run_underwriting c8Inp settings.target_roi).cash_on_cash = some (-3 / 200) := by
  refine ⟨?_, ?_, ?_, ?_, ?_, ?_, ?_⟩
  · norm_num [run_underwriting, mortgageOf, loanAmountOf, downPaymentOf,
      monthlyMortgagePayment, pyRound, roundHalfEven, c8Inp, max_def]
  · norm_num [run_underwriting, operatingExpensesOf, varOpexOf, fixedOpexOf, pyRound,
      roundHalfEven, c8Inp]
  · norm_num [run_underwriting, noiOf, effectiveGrossOf, operatingExpensesOf, varOpexOf,
      fixedOpexOf, pyRound, roundHalfEven, c8Inp]
  · norm_num [run_underwriting, noiOf, effectiveGrossOf, operatingExpensesOf, varOpexOf,
      fixedOpexOf, pyRound, roundHalfEven, c8Inp]
  · norm_num [run_underwriting, cashFlowOf, noiOf, effectiveGrossOf, operatingExpensesOf,
      varOpexOf, fixedOpexOf, mortgageOf, loanAmountOf, downPaymentOf,
      monthlyMortgagePayment, pyRound, roundHalfEven, c8Inp, max_def]
  · norm_num [run_underwriting, noiOf, effectiveGrossOf, operatingExpensesOf, varOpexOf,
      fixedOpexOf, mortgageOf, loanAmountOf, downPaymentOf, monthlyMortgagePayment,
      eps, pyRound, roundHalfEven, c8Inp, settings, max_def]
  · norm_num [run_underwriting, cashFlowOf, noiOf, effectiveGrossOf, operatingExpensesOf,
      varOpexOf, fixedOpexOf, mortgageOf, loanAmountOf, downPaymentOf,
      monthlyMortgagePayment, eps, pyRound, roundHalfEven, c8Inp, settings, max_def]

end Onehaven
